import Mathlib

/-!
# Verification of the Palletizer Go SDK client (`src/client.go`)

A shallow embedding of the Palletizer API client. Go `float64` fields are
modelled by `GoFloat`: an exact rational for the finite values (JSON number
values are rationals on the wire), plus NaN and the two infinities, which
`encoding/json` refuses to marshal. Go `int` is modelled by `ℤ`, Go `string`
by `String`. JSON documents are modelled as a value tree `Json`; the
encoders/decoders below mirror the `encoding/json` behaviour for the struct
tags in `client.go` (snake_case keys, field-name lookup with last-duplicate
precedence, missing/null fields leaving the Go zero value, type mismatch
failing the decode, unknown keys ignored).

The effectful `Pack` method is embedded as a pure function over a `PackEnv`
describing the outcome of each external step (request construction, the
single HTTP round trip, the body read, and whether the body text is
syntactically valid JSON); it returns the pair of Go results
(`*PackingResponse`, `error`) as two `Option`s, together with the list of
HTTP requests issued during the call.
-/

namespace Palletizer

/-- A Go `float64` value: finite values are carried exactly as rationals
(adequate for every claim considered, which never relies on rounding);
NaN and ±Inf are the values `json.Marshal` rejects. -/
inductive GoFloat where
  | finite : ℚ → GoFloat
  | nan : GoFloat
  | inf : Bool → GoFloat
  deriving DecidableEq, Repr

instance : OfScientific GoFloat :=
  ⟨fun m e s => GoFloat.finite (OfScientific.ofScientific m e s)⟩

instance (n : ℕ) : OfNat GoFloat n := ⟨GoFloat.finite (OfNat.ofNat n)⟩

/-- Whether a `float64` is finite (neither NaN nor an infinity). -/
def GoFloat.isFinite : GoFloat → Bool
  | .finite _ => true
  | _ => false

/-- A JSON document, as a value tree. Numbers are exact rationals. -/
inductive Json where
  | str : String → Json
  | num : ℚ → Json
  | bool : Bool → Json
  | null : Json
  | arr : List Json → Json
  | obj : List (String × Json) → Json

/-- `Carton` from `client.go`: a carton to be packed. -/
structure Carton where
  ID : String
  Length : GoFloat
  Width : GoFloat
  Height : GoFloat
  Weight : GoFloat
  Quantity : ℤ
  Fragile : Bool
  AllowRotation : Bool
  deriving DecidableEq, Repr

/-- `PackingConstraints` from `client.go`: maximum dimensions and weight. -/
structure PackingConstraints where
  MaxLength : GoFloat
  MaxWidth : GoFloat
  MaxHeight : GoFloat
  MaxWeight : GoFloat
  deriving DecidableEq, Repr

/-- `PackingOptions` from `client.go`. -/
structure PackingOptions where
  SupportPercentage : GoFloat
  deriving DecidableEq, Repr

/-- `PackingRequest` from `client.go`: the sole outbound payload. -/
structure PackingRequest where
  Cartons : List Carton
  PackingConstraints : PackingConstraints
  PackingOptions : PackingOptions
  deriving DecidableEq, Repr

/-- `Point3D` from `client.go`. -/
structure Point3D where
  X : GoFloat
  Y : GoFloat
  Z : GoFloat
  deriving DecidableEq, Repr

/-- `Dimensions` from `client.go`. -/
structure Dimensions where
  Length : GoFloat
  Width : GoFloat
  Height : GoFloat
  deriving DecidableEq, Repr

/-- `PlacedCarton` from `client.go`. -/
structure PlacedCarton where
  CartonID : String
  Position : Point3D
  Dimensions : Dimensions
  Orientation : String
  Weight : GoFloat
  Layer : ℤ
  deriving DecidableEq, Repr

/-- `Pallet` from `client.go`. -/
structure Pallet where
  PalletID : ℤ
  TotalWeight : GoFloat
  TotalHeight : GoFloat
  UtilizationPercentage : GoFloat
  Cartons : List PlacedCarton
  CenterOfGravity : Point3D
  deriving DecidableEq, Repr

/-- `PackingSummary` from `client.go`. -/
structure PackingSummary where
  TotalPallets : ℤ
  TotalCartonsPacked : ℤ
  AverageUtilization : GoFloat
  ComputationTimeMs : ℤ
  deriving DecidableEq, Repr

/-- `PackingResponse` from `client.go`. -/
structure PackingResponse where
  Pallets : List Pallet
  Summary : PackingSummary
  Error : String
  deriving DecidableEq, Repr

/-! ## Go zero values (what `var response PackingResponse` starts as) -/

def Point3D.zero : Point3D := ⟨.finite 0, .finite 0, .finite 0⟩

def Dimensions.zero : Dimensions := ⟨.finite 0, .finite 0, .finite 0⟩

def PlacedCarton.zero : PlacedCarton :=
  ⟨"", Point3D.zero, Dimensions.zero, "", .finite 0, 0⟩

def Pallet.zero : Pallet :=
  ⟨0, .finite 0, .finite 0, .finite 0, [], Point3D.zero⟩

def PackingSummary.zero : PackingSummary := ⟨0, 0, .finite 0, 0⟩

def PackingResponse.zero : PackingResponse := ⟨[], PackingSummary.zero, ""⟩

def Carton.zero : Carton :=
  ⟨"", .finite 0, .finite 0, .finite 0, .finite 0, 0, false, false⟩

def PackingConstraints.zero : PackingConstraints :=
  ⟨.finite 0, .finite 0, .finite 0, .finite 0⟩

def PackingOptions.zero : PackingOptions := ⟨.finite 0⟩

def PackingRequest.zero : PackingRequest :=
  ⟨[], PackingConstraints.zero, PackingOptions.zero⟩

/-! ## Marshalling (`json.Marshal` on the request types)

`json.Marshal` emits struct fields in declaration order under their tag
names, and fails on a non-finite `float64`
(`json: unsupported value: NaN`). -/

/-- Marshal one `float64`: succeeds exactly on finite values. -/
def encodeGoFloat : GoFloat → Option Json
  | .finite q => some (.num q)
  | _ => none

/-- Marshal a `Carton` under its struct tags. -/
def encodeCarton (c : Carton) : Option Json :=
  match encodeGoFloat c.Length, encodeGoFloat c.Width,
        encodeGoFloat c.Height, encodeGoFloat c.Weight with
  | some l, some w, some h, some wt =>
      some (.obj [("id", .str c.ID), ("length", l), ("width", w),
                  ("height", h), ("weight", wt),
                  ("quantity", .num (c.Quantity : ℚ)),
                  ("fragile", .bool c.Fragile),
                  ("allow_rotation", .bool c.AllowRotation)])
  | _, _, _, _ => none

/-- Marshal a list of cartons elementwise (`[]Carton`). -/
def encodeCartonList : List Carton → Option (List Json)
  | [] => some []
  | c :: rest =>
    match encodeCarton c, encodeCartonList rest with
    | some j, some js => some (j :: js)
    | _, _ => none

/-- Marshal `PackingConstraints` under its struct tags. -/
def encodePackingConstraints (p : PackingConstraints) : Option Json :=
  match encodeGoFloat p.MaxLength, encodeGoFloat p.MaxWidth,
        encodeGoFloat p.MaxHeight, encodeGoFloat p.MaxWeight with
  | some l, some w, some h, some wt =>
      some (.obj [("max_length", l), ("max_width", w),
                  ("max_height", h), ("max_weight", wt)])
  | _, _, _, _ => none

/-- Marshal `PackingOptions` under its struct tags. -/
def encodePackingOptions (p : PackingOptions) : Option Json :=
  match encodeGoFloat p.SupportPercentage with
  | some s => some (.obj [("support_percentage", s)])
  | none => none

/-- Marshal a `PackingRequest` — the `json.Marshal(request)` step of `Pack`. -/
def encodePackingRequest (r : PackingRequest) : Option Json :=
  match encodeCartonList r.Cartons,
        encodePackingConstraints r.PackingConstraints,
        encodePackingOptions r.PackingOptions with
  | some cs, some pc, some po =>
      some (.obj [("cartons", .arr cs),
                  ("packing_constraints", pc),
                  ("packing_options", po)])
  | _, _, _ => none

/-! ## Unmarshalling (`json.Unmarshal` into the SDK's struct types)

`json.Unmarshal` matches object keys to struct tags (a duplicated key is
decoded repeatedly, so the last occurrence wins), leaves a field untouched
(its zero value here) when the key is missing or its value is `null`,
ignores unknown keys, fails on a type mismatch, and treats a top-level
`null` as a no-op. -/

/-- Find the value a repeatedly-decoded key ends up with: last occurrence. -/
def lookupField (fields : List (String × Json)) (key : String) : Option Json :=
  fields.foldl (fun acc kv => if kv.1 = key then some kv.2 else acc) none

/-- Decode a `float64` struct field (missing / `null` keeps the zero value). -/
def decodeFloatField (fields : List (String × Json)) (key : String) :
    Option GoFloat :=
  match lookupField fields key with
  | none => some (.finite 0)
  | some .null => some (.finite 0)
  | some (.num q) => some (.finite q)
  | some _ => none

/-- Decode a `string` struct field. -/
def decodeStringField (fields : List (String × Json)) (key : String) :
    Option String :=
  match lookupField fields key with
  | none => some ""
  | some .null => some ""
  | some (.str s) => some s
  | some _ => none

/-- Decode an `int` struct field: the JSON number must be an integer. -/
def decodeIntField (fields : List (String × Json)) (key : String) : Option ℤ :=
  match lookupField fields key with
  | none => some 0
  | some .null => some 0
  | some (.num q) => if q.den = 1 then some q.num else none
  | some _ => none

/-- Decode a `bool` struct field. -/
def decodeBoolField (fields : List (String × Json)) (key : String) :
    Option Bool :=
  match lookupField fields key with
  | none => some false
  | some .null => some false
  | some (.bool b) => some b
  | some _ => none

/-- Decode a `Point3D` value. -/
def decodePoint3D : Json → Option Point3D
  | .null => some Point3D.zero
  | .obj fields =>
    match decodeFloatField fields "x", decodeFloatField fields "y",
          decodeFloatField fields "z" with
    | some x, some y, some z => some ⟨x, y, z⟩
    | _, _, _ => none
  | _ => none

/-- Decode a `Dimensions` value. -/
def decodeDimensions : Json → Option Dimensions
  | .null => some Dimensions.zero
  | .obj fields =>
    match decodeFloatField fields "length", decodeFloatField fields "width",
          decodeFloatField fields "height" with
    | some l, some w, some h => some ⟨l, w, h⟩
    | _, _, _ => none
  | _ => none

/-- Decode a struct-typed field: missing keeps the zero value, otherwise the
inner decoder runs on the value (which itself treats `null` as a no-op). -/
def decodeStructField {α : Type} (fields : List (String × Json)) (key : String)
    (zero : α) (dec : Json → Option α) : Option α :=
  match lookupField fields key with
  | none => some zero
  | some j => dec j

/-- Decode a `PlacedCarton` value. -/
def decodePlacedCarton : Json → Option PlacedCarton
  | .null => some PlacedCarton.zero
  | .obj fields =>
    match decodeStringField fields "carton_id",
          decodeStructField fields "position" Point3D.zero decodePoint3D,
          decodeStructField fields "dimensions" Dimensions.zero decodeDimensions,
          decodeStringField fields "orientation",
          decodeFloatField fields "weight",
          decodeIntField fields "layer" with
    | some cid, some pos, some dim, some ori, some w, some lay =>
        some ⟨cid, pos, dim, ori, w, lay⟩
    | _, _, _, _, _, _ => none
  | _ => none

/-- Decode a `[]PlacedCarton` element list. -/
def decodePlacedCartonList : List Json → Option (List PlacedCarton)
  | [] => some []
  | j :: rest =>
    match decodePlacedCarton j, decodePlacedCartonList rest with
    | some c, some cs => some (c :: cs)
    | _, _ => none

/-- Decode a slice-typed field: missing or `null` leaves the nil slice. -/
def decodeSliceField {α : Type} (fields : List (String × Json)) (key : String)
    (dec : List Json → Option (List α)) : Option (List α) :=
  match lookupField fields key with
  | none => some []
  | some .null => some []
  | some (.arr xs) => dec xs
  | some _ => none

/-- Decode a `Pallet` value. -/
def decodePallet : Json → Option Pallet
  | .null => some Pallet.zero
  | .obj fields =>
    match decodeIntField fields "pallet_id",
          decodeFloatField fields "total_weight",
          decodeFloatField fields "total_height",
          decodeFloatField fields "utilization_percentage",
          decodeSliceField fields "cartons" decodePlacedCartonList,
          decodeStructField fields "center_of_gravity" Point3D.zero
            decodePoint3D with
    | some pid, some tw, some th, some up, some cs, some cog =>
        some ⟨pid, tw, th, up, cs, cog⟩
    | _, _, _, _, _, _ => none
  | _ => none

/-- Decode a `[]Pallet` element list. -/
def decodePalletList : List Json → Option (List Pallet)
  | [] => some []
  | j :: rest =>
    match decodePallet j, decodePalletList rest with
    | some p, some ps => some (p :: ps)
    | _, _ => none

/-- Decode a `PackingSummary` value. -/
def decodePackingSummary : Json → Option PackingSummary
  | .null => some PackingSummary.zero
  | .obj fields =>
    match decodeIntField fields "total_pallets",
          decodeIntField fields "total_cartons_packed",
          decodeFloatField fields "average_utilization",
          decodeIntField fields "computation_time_ms" with
    | some tp, some tc, some au, some ct => some ⟨tp, tc, au, ct⟩
    | _, _, _, _ => none
  | _ => none

/-- Decode a `PackingResponse` value — the shape `Pack` unmarshals into. -/
def decodePackingResponse : Json → Option PackingResponse
  | .null => some PackingResponse.zero
  | .obj fields =>
    match decodeSliceField fields "pallets" decodePalletList,
          decodeStructField fields "summary" PackingSummary.zero
            decodePackingSummary,
          decodeStringField fields "error" with
    | some ps, some s, some e => some ⟨ps, s, e⟩
    | _, _, _ => none
  | _ => none

/-- Decode a `Carton` value. -/
def decodeCarton : Json → Option Carton
  | .null => some Carton.zero
  | .obj fields =>
    match decodeStringField fields "id",
          decodeFloatField fields "length",
          decodeFloatField fields "width",
          decodeFloatField fields "height",
          decodeFloatField fields "weight",
          decodeIntField fields "quantity",
          decodeBoolField fields "fragile",
          decodeBoolField fields "allow_rotation" with
    | some i, some l, some w, some h, some wt, some q, some f, some ar =>
        some ⟨i, l, w, h, wt, q, f, ar⟩
    | _, _, _, _, _, _, _, _ => none
  | _ => none

/-- Decode a `[]Carton` element list. -/
def decodeCartonJsonList : List Json → Option (List Carton)
  | [] => some []
  | j :: rest =>
    match decodeCarton j, decodeCartonJsonList rest with
    | some c, some cs => some (c :: cs)
    | _, _ => none

/-- Decode a `PackingConstraints` value. -/
def decodePackingConstraints : Json → Option PackingConstraints
  | .null => some PackingConstraints.zero
  | .obj fields =>
    match decodeFloatField fields "max_length",
          decodeFloatField fields "max_width",
          decodeFloatField fields "max_height",
          decodeFloatField fields "max_weight" with
    | some l, some w, some h, some wt => some ⟨l, w, h, wt⟩
    | _, _, _, _ => none
  | _ => none

/-- Decode a `PackingOptions` value. -/
def decodePackingOptions : Json → Option PackingOptions
  | .null => some PackingOptions.zero
  | .obj fields =>
    match decodeFloatField fields "support_percentage" with
    | some s => some ⟨s⟩
    | none => none
  | _ => none

/-- Decode a `PackingRequest` value (used for the round-trip property). -/
def decodePackingRequest : Json → Option PackingRequest
  | .null => some PackingRequest.zero
  | .obj fields =>
    match decodeSliceField fields "cartons" decodeCartonJsonList,
          decodeStructField fields "packing_constraints" PackingConstraints.zero
            decodePackingConstraints,
          decodeStructField fields "packing_options" PackingOptions.zero
            decodePackingOptions with
    | some cs, some pc, some po => some ⟨cs, pc, po⟩
    | _, _, _ => none
  | _ => none

/-! ## Presets and unit-conversion helpers (`client.go` lines 223–261)

The conversion helpers act on `float64`; the claims about them quantify over
ordinary (finite) inputs, so they are embedded on the exact rationals. -/

/-- `StandardPallet`: constraints for a standard 40x72x48 inch pallet. -/
def StandardPallet : PackingConstraints :=
  { MaxLength := 1016.0
    MaxWidth := 1828.8
    MaxHeight := 1219.2
    MaxWeight := 680388.0 }

/-- `StandardPallet4048`: constraints for a 40x48x48 inch pallet. -/
def StandardPallet4048 : PackingConstraints :=
  { MaxLength := 1016.0
    MaxWidth := 1219.2
    MaxHeight := 1219.2
    MaxWeight := 680388.0 }

/-- `InchesToMM` converts inches to millimeters. -/
def InchesToMM (inches : ℚ) : ℚ := inches * 25.4

/-- `PoundsToGrams` converts pounds to grams. -/
def PoundsToGrams (pounds : ℚ) : ℚ := pounds * 453.592

/-- `MMToInches` converts millimeters to inches. -/
def MMToInches (mm : ℚ) : ℚ := mm / 25.4

/-- `GramsToPounds` converts grams to pounds. -/
def GramsToPounds (grams : ℚ) : ℚ := grams / 453.592

/-! ## The `Pack` method (`client.go` lines 185–221)

`Pack` performs four external steps whose outcomes the code cannot control:
`http.NewRequestWithContext` (can fail on a malformed URL), the single
`httpClient.Do` round trip, `io.ReadAll` on the response body, and the
syntactic validity of the body as JSON. A `PackEnv` prescribes each outcome;
`Pack` below is the code's control flow over them.

The received body is a byte string; `RespBody` pairs the raw text with
either the `json.Unmarshal` syntax-error message it provokes (the
`encoding/json` error text never embeds the input, only at most the one
offending character and an offset) or, when it is well-formed JSON, the
document it denotes. -/

/-- A response body as handed to `json.Unmarshal`: the raw text together
with its parse outcome. -/
inductive RespBody where
  | malformed : String → String → RespBody
  | wellFormed : String → Json → RespBody

/-- The raw text of a body (`string(body)` in the Go code). -/
def RespBody.raw : RespBody → String
  | .malformed s _ => s
  | .wellFormed s _ => s

/-- `json.Unmarshal(body, &response)`: a syntax error for malformed text,
an `UnmarshalTypeError` (whose message names the offending Go type, not the
input) on shape mismatch, otherwise the decoded response. -/
def unmarshalPackingResponse : RespBody → Except String PackingResponse
  | .malformed _ msg => .error msg
  | .wellFormed _ j =>
    match decodePackingResponse j with
    | some r => .ok r
    | none =>
      .error "json: cannot unmarshal JSON value into Go value of type palletizer.PackingResponse"

/-- The outcome of the single `httpClient.Do` call: a network-level failure
(connection refused, timeout, cancellation), or a response with its HTTP
status code and the outcome of reading its body. -/
inductive SendOutcome where
  | netError : String → SendOutcome
  | response : ℕ → Except String RespBody → SendOutcome

/-- The outcomes of `Pack`'s external steps for one invocation. -/
structure PackEnv where
  newRequestOk : Bool
  send : SendOutcome

/-- An HTTP request as constructed by `Pack`: method, URL, the
`Content-Type` header, and the serialized body. -/
structure HTTPRequest where
  method : String
  url : String
  contentType : String
  body : Json

/-- The errors `Pack` can return, mirroring the `fmt.Errorf` sites: each
constructor carries exactly the data the corresponding Go error embeds. -/
inductive PackError where
  | marshalError : PackError
  | newRequestError : PackError
  | sendError : String → PackError
  | readError : String → PackError
  | parseError : String → PackError
  | apiErrorMessage : ℕ → String → PackError
  | apiErrorBody : ℕ → String → PackError

/-- `Pack`'s Go return pair (`*PackingResponse`, `error`) plus the trace of
HTTP requests issued during the call. -/
structure PackResult where
  response : Option PackingResponse
  err : Option PackError
  sent : List HTTPRequest

/-- The `Pack` method of `client.go`, over the outcomes in `env`. -/
def Pack (baseURL : String) (request : PackingRequest) (env : PackEnv) :
    PackResult :=
  match encodePackingRequest request with
  | none => ⟨none, some .marshalError, []⟩
  | some jsonData =>
    if env.newRequestOk = false then ⟨none, some .newRequestError, []⟩
    else
      let req : HTTPRequest :=
        ⟨"POST", baseURL ++ "/api/v1/pack", "application/json", jsonData⟩
      match env.send with
      | .netError m => ⟨none, some (.sendError m), [req]⟩
      | .response statusCode readResult =>
        match readResult with
        | .error m => ⟨none, some (.readError m), [req]⟩
        | .ok body =>
          match unmarshalPackingResponse body with
          | .error m => ⟨none, some (.parseError m), [req]⟩
          | .ok response =>
            if statusCode ≠ 200 then
              if response.Error ≠ "" then
                ⟨none, some (.apiErrorMessage statusCode response.Error), [req]⟩
              else
                ⟨none, some (.apiErrorBody statusCode body.raw), [req]⟩
            else
              ⟨some response, none, [req]⟩

/-! ## Finiteness of a request's `float64` fields -/

/-- All four `float64` fields of a `Carton` are finite. -/
def Carton.allFinite (c : Carton) : Bool :=
  c.Length.isFinite && c.Width.isFinite && c.Height.isFinite &&
    c.Weight.isFinite

/-- All four `float64` fields of a `PackingConstraints` are finite. -/
def PackingConstraints.allFinite (p : PackingConstraints) : Bool :=
  p.MaxLength.isFinite && p.MaxWidth.isFinite && p.MaxHeight.isFinite &&
    p.MaxWeight.isFinite

/-- Every `float64` field anywhere in a `PackingRequest` is finite. -/
def PackingRequest.allFinite (r : PackingRequest) : Bool :=
  r.Cartons.all Carton.allFinite && r.PackingConstraints.allFinite &&
    r.PackingOptions.SupportPercentage.isFinite

/-! ## Concrete values used to instantiate the theorems -/

/-- The carton of the package-level usage example in `client.go`. -/
def exampleCarton : Carton :=
  { ID := "BOX001", Length := 609.6, Width := 457.2, Height := 406.4,
    Weight := 18143.68, Quantity := 30, Fragile := false,
    AllowRotation := true }

/-- The request of the package-level usage example in `client.go`. -/
def exampleRequest : PackingRequest :=
  { Cartons := [exampleCarton], PackingConstraints := StandardPallet,
    PackingOptions := { SupportPercentage := 80.0 } }

/-- The JSON document `json.Marshal` produces for `exampleRequest`. -/
def exampleJsonData : Json :=
  .obj [("cartons", .arr
          [.obj [("id", .str "BOX001"), ("length", .num 609.6),
                 ("width", .num 457.2), ("height", .num 406.4),
                 ("weight", .num 18143.68),
                 ("quantity", .num ((30 : ℤ) : ℚ)),
                 ("fragile", .bool false), ("allow_rotation", .bool true)]]),
        ("packing_constraints",
          .obj [("max_length", .num 1016.0), ("max_width", .num 1828.8),
                ("max_height", .num 1219.2), ("max_weight", .num 680388.0)]),
        ("packing_options", .obj [("support_percentage", .num 80.0)])]

/-- A request with a NaN dimension, which `json.Marshal` rejects. -/
def nanRequest : PackingRequest :=
  { Cartons := [{ Carton.zero with ID := "BAD", Length := .nan }],
    PackingConstraints := StandardPallet,
    PackingOptions := { SupportPercentage := 80.0 } }

/-- A response whose embedded soft `error` field is non-empty. -/
def softErrorResponse : PackingResponse :=
  { Pallets := [], Summary := PackingSummary.zero,
    Error := "no feasible packing" }

/-- The JSON document of a body reporting only a soft error. -/
def softErrorJson : Json := .obj [("error", .str "no feasible packing")]

/-- The raw text of that body. -/
def softErrorRaw : String := "\x7b\"error\": \"no feasible packing\"\x7d"

/-- Environment of a call that gets a 200 with a soft-error body. -/
def okEnv : PackEnv :=
  ⟨true, .response 200 (.ok (.wellFormed softErrorRaw softErrorJson))⟩

/-- Environment of a call that gets a 422 with a soft-error body. -/
def errEnv : PackEnv :=
  ⟨true, .response 422 (.ok (.wellFormed softErrorRaw softErrorJson))⟩

/-- Environment of a call whose single network round trip fails. -/
def netFailEnv : PackEnv := ⟨true, .netError "connection refused"⟩

/-- A truncated body: `json.Unmarshal` reports the syntax error without
echoing the input. -/
def malformedBody : RespBody := .malformed "\x7b" "unexpected end of JSON input"

/-- A different truncated body provoking the very same syntax error. -/
def malformedBody2 : RespBody := .malformed "[" "unexpected end of JSON input"

/-- Environment delivering `malformedBody` with status 200. -/
def badSyntaxEnv : PackEnv := ⟨true, .response 200 (.ok malformedBody)⟩

/-- Environment delivering `malformedBody2` with status 200. -/
def badSyntaxEnv2 : PackEnv := ⟨true, .response 200 (.ok malformedBody2)⟩

/-! ## Round-trip lemmas for the request schema -/

/-- Unmarshalling undoes marshalling on a `Carton`. -/
theorem decode_encode_carton (c : Carton) (j : Json)
    (h : encodeCarton c = some j) : decodeCarton j = some c := by
  obtain ⟨i, l, w, ht, wt, q, f, ar⟩ := c
  cases l <;> cases w <;> cases ht <;> cases wt <;>
    simp [encodeCarton, encodeGoFloat] at h
  subst h
  simp [decodeCarton, decodeStringField, decodeFloatField, decodeBoolField,
        decodeIntField, lookupField]

/-- Unmarshalling undoes marshalling on a `[]Carton`. -/
theorem decode_encode_carton_list (l : List Carton) (js : List Json)
    (h : encodeCartonList l = some js) : decodeCartonJsonList js = some l := by
  induction l generalizing js with
  | nil =>
    simp [encodeCartonList] at h
    subst h
    rfl
  | cons c rest ih =>
    unfold encodeCartonList at h
    cases hc : encodeCarton c <;> rw [hc] at h
    · exact absurd h (by simp)
    · cases hr : encodeCartonList rest <;> rw [hr] at h
      · exact absurd h (by simp)
      · simp only [Option.some.injEq] at h
        subst h
        simp [decodeCartonJsonList, decode_encode_carton c _ hc, ih _ hr]

/-- Unmarshalling undoes marshalling on a `PackingConstraints`. -/
theorem decode_encode_constraints (p : PackingConstraints) (j : Json)
    (h : encodePackingConstraints p = some j) :
    decodePackingConstraints j = some p := by
  obtain ⟨l, w, ht, wt⟩ := p
  cases l <;> cases w <;> cases ht <;> cases wt <;>
    simp [encodePackingConstraints, encodeGoFloat] at h
  subst h
  simp [decodePackingConstraints, decodeFloatField, lookupField]

/-- Unmarshalling undoes marshalling on a `PackingOptions`. -/
theorem decode_encode_options (p : PackingOptions) (j : Json)
    (h : encodePackingOptions p = some j) : decodePackingOptions j = some p := by
  obtain ⟨s⟩ := p
  cases s <;> simp [encodePackingOptions, encodeGoFloat] at h
  subst h
  simp [decodePackingOptions, decodeFloatField, lookupField]

/-! ## Totality lemmas for marshalling on finite floats -/

/-- A carton with finite floats always marshals. -/
theorem encodeCarton_isSome (c : Carton) (h : c.allFinite = true) :
    (encodeCarton c).isSome = true := by
  obtain ⟨i, l, w, ht, wt, q, f, ar⟩ := c
  cases l <;> cases w <;> cases ht <;> cases wt <;>
    simp_all [Carton.allFinite, GoFloat.isFinite, encodeCarton, encodeGoFloat]

/-- A carton list with finite floats always marshals. -/
theorem encodeCartonList_isSome (l : List Carton)
    (h : l.all Carton.allFinite = true) :
    (encodeCartonList l).isSome = true := by
  induction l with
  | nil => rfl
  | cons c rest ih =>
    simp only [List.all_cons, Bool.and_eq_true] at h
    obtain ⟨j, hj⟩ := Option.isSome_iff_exists.mp (encodeCarton_isSome c h.1)
    obtain ⟨js, hjs⟩ := Option.isSome_iff_exists.mp (ih h.2)
    unfold encodeCartonList
    rw [hj, hjs]
    rfl

/-- Constraints with finite floats always marshal. -/
theorem encodeConstraints_isSome (p : PackingConstraints)
    (h : p.allFinite = true) : (encodePackingConstraints p).isSome = true := by
  obtain ⟨l, w, ht, wt⟩ := p
  cases l <;> cases w <;> cases ht <;> cases wt <;>
    simp_all [PackingConstraints.allFinite, GoFloat.isFinite,
              encodePackingConstraints, encodeGoFloat]

/-- Options with a finite support percentage always marshal. -/
theorem encodeOptions_isSome (p : PackingOptions)
    (h : p.SupportPercentage.isFinite = true) :
    (encodePackingOptions p).isSome = true := by
  obtain ⟨s⟩ := p
  cases s <;> simp_all [GoFloat.isFinite, encodePackingOptions, encodeGoFloat]

/-- A request all of whose floats are finite always marshals. -/
theorem encodeRequest_isSome (r : PackingRequest) (h : r.allFinite = true) :
    (encodePackingRequest r).isSome = true := by
  obtain ⟨cs, pc, po⟩ := r
  simp only [PackingRequest.allFinite, Bool.and_eq_true] at h
  obtain ⟨⟨h1, h2⟩, h3⟩ := h
  obtain ⟨j1, hj1⟩ := Option.isSome_iff_exists.mp (encodeCartonList_isSome cs h1)
  obtain ⟨j2, hj2⟩ := Option.isSome_iff_exists.mp (encodeConstraints_isSome pc h2)
  obtain ⟨j3, hj3⟩ := Option.isSome_iff_exists.mp (encodeOptions_isSome po h3)
  unfold encodePackingRequest
  rw [hj1, hj2, hj3]
  rfl

/-! ## Claim theorems -/

/-- C1: if the HTTP status is 200 and the body decodes as a
`PackingResponse`, `Pack` returns the decoded response with a nil error,
even when the response's `error` field is non-empty — the embedded soft
error never becomes a failure of `Pack`. -/
theorem pack_ok_returns_decoded_response
    (baseURL : String) (request : PackingRequest) (env : PackEnv)
    (jd : Json) (raw : String) (j : Json) (r : PackingResponse)
    (hm : encodePackingRequest request = some jd)
    (hn : env.newRequestOk = true)
    (hs : env.send = .response 200 (.ok (.wellFormed raw j)))
    (hd : decodePackingResponse j = some r) :
    (Pack baseURL request env).response = some r ∧
    (Pack baseURL request env).err = none := by
  simp [Pack, hm, hn, hs, unmarshalPackingResponse, hd]

theorem pack_ok_returns_decoded_response_witness :
    softErrorResponse.Error = "no feasible packing" ∧
    (Pack "https://api.palletizer.app" exampleRequest okEnv).response =
      some softErrorResponse ∧
    (Pack "https://api.palletizer.app" exampleRequest okEnv).err = none :=
  ⟨rfl, pack_ok_returns_decoded_response "https://api.palletizer.app"
    exampleRequest okEnv exampleJsonData softErrorRaw softErrorJson
    softErrorResponse rfl rfl rfl rfl⟩

/-- C2: if the HTTP status is not 200 and the body decodes as a
`PackingResponse`, `Pack` fails with an error carrying the status code and
the decoded `error` field when non-empty, else the raw body text. -/
theorem pack_non_ok_fails_with_status_and_message
    (baseURL : String) (request : PackingRequest) (env : PackEnv)
    (jd : Json) (raw : String) (j : Json) (r : PackingResponse) (status : ℕ)
    (hm : encodePackingRequest request = some jd)
    (hn : env.newRequestOk = true)
    (hs : env.send = .response status (.ok (.wellFormed raw j)))
    (hd : decodePackingResponse j = some r)
    (hst : status ≠ 200) :
    (Pack baseURL request env).response = none ∧
    (Pack baseURL request env).err =
      some (if r.Error ≠ "" then .apiErrorMessage status r.Error
            else .apiErrorBody status raw) := by
  by_cases he : r.Error = "" <;>
    simp [Pack, hm, hn, hs, unmarshalPackingResponse, hd, hst, he,
          RespBody.raw]

theorem pack_non_ok_fails_with_status_and_message_witness :
    (Pack "https://api.palletizer.app" exampleRequest errEnv).response =
      none ∧
    (Pack "https://api.palletizer.app" exampleRequest errEnv).err =
      some (.apiErrorMessage 422 "no feasible packing") := by
  have h := pack_non_ok_fails_with_status_and_message
    "https://api.palletizer.app" exampleRequest errEnv exampleJsonData
    softErrorRaw softErrorJson softErrorResponse 422 rfl rfl rfl rfl
    (by decide)
  simpa [softErrorResponse] using h

/-- C3 (counterexample): the parse-failure error of `Pack` does not carry
the raw body: two distinct raw bodies — `"{"` and `"["`, both provoking the
`json.Unmarshal` syntax error `"unexpected end of JSON input"` — produce
identical `Pack` results, so no raw body can be recovered from the error. -/
theorem pack_parse_error_not_carrying_raw_body :
    malformedBody.raw ≠ malformedBody2.raw ∧
    Pack "https://api.palletizer.app" exampleRequest badSyntaxEnv =
      Pack "https://api.palletizer.app" exampleRequest badSyntaxEnv2 :=
  ⟨by decide, rfl⟩

/-- C3 (amended): for every HTTP response received, `Pack` parses the body
regardless of the HTTP status code and before any status check; if parsing
fails, `Pack` fails with a decode error that carries the `json.Unmarshal`
error message (not the raw body). -/
theorem pack_parse_failure_fails_before_status_check
    (baseURL : String) (request : PackingRequest) (env : PackEnv)
    (jd : Json) (status : ℕ) (body : RespBody) (m : String)
    (hm : encodePackingRequest request = some jd)
    (hn : env.newRequestOk = true)
    (hs : env.send = .response status (.ok body))
    (hu : unmarshalPackingResponse body = .error m) :
    (Pack baseURL request env).response = none ∧
    (Pack baseURL request env).err = some (.parseError m) := by
  simp [Pack, hm, hn, hs, hu]

theorem pack_parse_failure_fails_before_status_check_witness :
    (Pack "https://api.palletizer.app" exampleRequest badSyntaxEnv).response
      = none ∧
    (Pack "https://api.palletizer.app" exampleRequest badSyntaxEnv).err =
      some (.parseError "unexpected end of JSON input") :=
  pack_parse_failure_fails_before_status_check "https://api.palletizer.app"
    exampleRequest badSyntaxEnv exampleJsonData 200 malformedBody
    "unexpected end of JSON input" rfl rfl rfl rfl

/-- C4: if JSON serialization of the request fails, `Pack` returns an error
before any network activity — no HTTP request is constructed or sent. -/
theorem pack_marshal_failure_no_network
    (baseURL : String) (request : PackingRequest) (env : PackEnv)
    (hm : encodePackingRequest request = none) :
    Pack baseURL request env = ⟨none, some .marshalError, []⟩ := by
  simp [Pack, hm]

theorem pack_marshal_failure_no_network_witness :
    Pack "https://api.palletizer.app" nanRequest netFailEnv =
      ⟨none, some .marshalError, []⟩ :=
  pack_marshal_failure_no_network "https://api.palletizer.app" nanRequest
    netFailEnv rfl

/-- C5: `Pack` issues exactly one HTTP POST, to `<base>/api/v1/pack`, with
header `Content-Type: application/json` and the serialized request as its
body; if that single network call fails, `Pack` returns the transport error
and no second request is ever sent. -/
theorem pack_single_post_no_retry
    (baseURL : String) (request : PackingRequest) (env : PackEnv) (jd : Json)
    (hm : encodePackingRequest request = some jd)
    (hn : env.newRequestOk = true) :
    (Pack baseURL request env).sent =
      [⟨"POST", baseURL ++ "/api/v1/pack", "application/json", jd⟩] ∧
    ∀ m, env.send = .netError m →
      (Pack baseURL request env).response = none ∧
      (Pack baseURL request env).err = some (.sendError m) := by
  constructor
  · cases hsend : env.send with
    | netError m => simp [Pack, hm, hn, hsend]
    | response st rr =>
      cases rr with
      | error e => simp [Pack, hm, hn, hsend]
      | ok body =>
        cases hu : unmarshalPackingResponse body with
        | error e => simp [Pack, hm, hn, hsend, hu]
        | ok resp =>
          by_cases hst : st = 200 <;> by_cases he : resp.Error = "" <;>
            simp [Pack, hm, hn, hsend, hu, hst, he]
  · intro m hsend
    simp [Pack, hm, hn, hsend]

theorem pack_single_post_no_retry_witness :
    (Pack "https://api.palletizer.app" exampleRequest netFailEnv).sent =
      [⟨"POST", "https://api.palletizer.app" ++ "/api/v1/pack",
        "application/json", exampleJsonData⟩] ∧
    (Pack "https://api.palletizer.app" exampleRequest netFailEnv).response =
      none ∧
    (Pack "https://api.palletizer.app" exampleRequest netFailEnv).err =
      some (.sendError "connection refused") := by
  have h := pack_single_post_no_retry "https://api.palletizer.app"
    exampleRequest netFailEnv exampleJsonData rfl rfl
  exact ⟨h.1, h.2 "connection refused" rfl⟩

/-- C6: the preset builders return the fixed values the spec states:
`StandardPallet` is `{1016.0, 1828.8, 1219.2, 680388.0}` and
`StandardPallet4048` is `{1016.0, 1219.2, 1219.2, 680388.0}`. -/
theorem standard_pallet_preset_values :
    StandardPallet =
      ⟨.finite 1016.0, .finite 1828.8, .finite 1219.2, .finite 680388.0⟩ ∧
    StandardPallet4048 =
      ⟨.finite 1016.0, .finite 1219.2, .finite 1219.2, .finite 680388.0⟩ :=
  ⟨rfl, rfl⟩

/-- C7: for every non-negative `x`, `MMToInches (InchesToMM x)` recovers
`x` (exactly, in the rational model — a fortiori within floating-point
tolerance), and symmetrically `GramsToPounds (PoundsToGrams x)` recovers
`x`; the helpers multiply and divide by the factors 25.4 and 453.592. -/
theorem unit_conversion_round_trip (x : ℚ) (hx : 0 ≤ x) :
    MMToInches (InchesToMM x) = x ∧ GramsToPounds (PoundsToGrams x) = x := by
  constructor
  · unfold MMToInches InchesToMM
    rw [mul_div_assoc, div_self (by norm_num : (25.4 : ℚ) ≠ 0), mul_one]
  · unfold GramsToPounds PoundsToGrams
    rw [mul_div_assoc, div_self (by norm_num : (453.592 : ℚ) ≠ 0), mul_one]

theorem unit_conversion_round_trip_witness :
    (0 : ℚ) ≤ 10 ∧
    (MMToInches (InchesToMM 10) = 10 ∧ GramsToPounds (PoundsToGrams 10) = 10) :=
  ⟨by norm_num, unit_conversion_round_trip 10 (by norm_num)⟩

/-- C8: for every `PackingRequest` that serializes (every valid request),
deserializing the resulting document yields a structurally equal
`PackingRequest`: every field of every carton, the constraints and the
options survive the round trip. -/
theorem packing_request_round_trip (r : PackingRequest) (j : Json)
    (h : encodePackingRequest r = some j) : decodePackingRequest j = some r := by
  obtain ⟨cs, pc, po⟩ := r
  unfold encodePackingRequest at h
  cases hc : encodeCartonList cs <;> rw [hc] at h
  · exact absurd h (by simp)
  cases hp : encodePackingConstraints pc <;> rw [hp] at h
  · exact absurd h (by simp)
  cases ho : encodePackingOptions po <;> rw [ho] at h
  · exact absurd h (by simp)
  simp only [Option.some.injEq] at h
  subst h
  simp [decodePackingRequest, decodeSliceField, decodeStructField, lookupField,
        decode_encode_carton_list cs _ hc, decode_encode_constraints pc _ hp,
        decode_encode_options po _ ho]

theorem packing_request_round_trip_witness :
    decodePackingRequest exampleJsonData = some exampleRequest :=
  packing_request_round_trip exampleRequest exampleJsonData rfl

/-- C9: on every execution path, `Pack` returns either a decoded response
with a nil error, or a nil response with a non-nil error — never both. -/
theorem pack_result_exclusive
    (baseURL : String) (request : PackingRequest) (env : PackEnv) :
    ((Pack baseURL request env).response = none ∧
      (Pack baseURL request env).err.isSome = true) ∨
    ((Pack baseURL request env).err = none ∧
      (Pack baseURL request env).response.isSome = true) := by
  unfold Pack
  cases hm : encodePackingRequest request
  · simp
  · cases hn : env.newRequestOk
    · simp
    · cases hsend : env.send with
      | netError m => simp
      | response st rr =>
        cases rr with
        | error e => simp
        | ok body =>
          cases hu : unmarshalPackingResponse body with
          | error e => simp [hu]
          | ok resp =>
            by_cases hst : st = 200 <;> by_cases he : resp.Error = "" <;>
              simp [hu, hst, he]

/-- C10: for every request whose `float64` fields are all finite, the JSON
serialization step of `Pack` succeeds, so the marshal-failure branch is
unreachable under that precondition; without it serialization can fail — a
request with a NaN dimension does not marshal. -/
theorem marshal_total_on_finite_floats :
    (∀ r : PackingRequest, r.allFinite = true →
      (encodePackingRequest r).isSome = true) ∧
    encodePackingRequest nanRequest = none :=
  ⟨fun r hr => encodeRequest_isSome r hr, rfl⟩

theorem marshal_total_on_finite_floats_witness :
    exampleRequest.allFinite = true ∧
    (encodePackingRequest exampleRequest).isSome = true :=
  ⟨rfl, marshal_total_on_finite_floats.1 exampleRequest rfl⟩

end Palletizer
